import Mathlib

/-!
Shallow embedding of the iterative network-optimization driver of
`scripts/solve_network.py` (pypsa-earth): the pre-solve network preparation
(`prepare_network`), the constraint-assembly layer (`extra_functionality`
and the individual constraint builders), the solve-path selection and the
solver-outcome handling inside `solve_network`.

Numeric values are embedded as rationals; pandas/linopy objects are embedded
as explicit lists; constraints are recorded as symbolic linear rows
(coefficient/variable pairs, a sense and a right-hand side).
-/

namespace SolveNetwork

/-- Model of Python's substring test `needle in hay` restricted to a
prefix position: `listStartsWith hay needle` is true when `needle` is an
initial segment of `hay`. -/
def listStartsWith : List Char → List Char → Bool
  | _, [] => true
  | [], _ :: _ => false
  | h :: hs, c :: cs => h == c && listStartsWith hs cs

/-- Model of Python's substring containment on character lists. -/
def listHasSub : List Char → List Char → Bool
  | [], needle => needle.isEmpty
  | h :: t, needle => listStartsWith (h :: t) needle || listHasSub t needle

/-- Model of Python's `pat in s` on strings. -/
def strContainsStr (s pat : String) : Bool :=
  listHasSub s.data pat.data

/-- Static row of the `buses` component table (only the columns the driver
reads). -/
structure Bus where
  name : String
  carrier : String
deriving DecidableEq

/-- Static row of the `generators` component table. -/
structure Generator where
  name : String
  bus : String
  carrier : String
  sign : ℚ
  marginal_cost : ℚ
  p_nom : ℚ
  p_nom_extendable : Bool
deriving DecidableEq

/-- Static row of the `lines` component table. -/
structure Line where
  name : String
  s_nom_extendable : Bool
  capital_cost : ℚ
  length : ℚ
deriving DecidableEq

/-- Static row of the `links` component table. -/
structure Link where
  name : String
  carrier : String
  efficiency : ℚ
  length : ℚ
  marginal_cost : ℚ
  capital_cost : ℚ
  p_nom_extendable : Bool
deriving DecidableEq

/-- Static row of the `storage_units` component table. -/
structure StorageUnit where
  name : String
  carrier : String
  marginal_cost : ℚ
deriving DecidableEq

/-- Static row of the `stores` component table. -/
structure Store where
  name : String
  carrier : String
  marginal_cost : ℚ
deriving DecidableEq

/-- Static row of the `loads` component table. -/
structure Load where
  name : String
  carrier : String
deriving DecidableEq

/-- Row of the `global_constraints` table (name plus the `constant` and
`mu` columns read by `prepare_network`). -/
structure GlobalConstraint where
  name : String
  constant : ℚ
  mu : ℚ
deriving DecidableEq

/-- The network state threaded through the driver.  Time-varying data
(`*_t` frames) are lists of per-snapshot rows of rationals. -/
structure Network where
  opts : List String
  buses : List Bus
  generators : List Generator
  lines : List Line
  links : List Link
  storage_units : List StorageUnit
  stores : List Store
  loads : List Load
  carriers : List String
  global_constraints : List GlobalConstraint
  snapshots : List Nat
  snapshot_weightings : List ℚ
  generators_t_p_max_pu : List (List ℚ)
  generators_t_p_min_pu : List (List ℚ)
  storage_units_t_inflow : List (List ℚ)
  loads_t_p_set : List (List ℚ)
  line_volume_limit : Option ℚ
  line_volume_limit_dual : Option ℚ
deriving DecidableEq

/-- Sense of a linear constraint row. -/
inductive Sense where
  | le
  | ge
  | eq
deriving DecidableEq

/-- One term `coeff * var` of a linear expression. -/
structure LinTerm where
  coeff : ℚ
  var : String
deriving DecidableEq

/-- A linear constraint added to the optimization problem: a named row
`lhs sense rhs`. -/
structure Constraint where
  name : String
  lhs : List LinTerm
  sense : Sense
  rhs : ℚ
deriving DecidableEq

/-- Name of the capacity variable of a link (`Link-p_nom` entry). -/
def linkPnomVar (nm : String) : String := "Link-p_nom-" ++ nm

/-- Name of the capacity variable of a generator (`Generator-p_nom` entry). -/
def genPnomVar (nm : String) : String := "Generator-p_nom-" ++ nm

/-- Name of the state-of-charge variable of a store at a snapshot
(`Store-e` entry). -/
def storeEVar (t : Nat) (nm : String) : String :=
  "Store-e-" ++ toString t ++ "-" ++ nm

/-- Boolean success test for an `Except` value. -/
def exceptOk {ε α : Type} : Except ε α → Bool
  | Except.ok _ => true
  | Except.error _ => false

/-! ## Solve-path selection and outcome handling (`solve_network`) -/

/-- The two solve paths of `solve_network`: a single plain `optimize`
call, or the iterative transmission-expansion loop. -/
inductive SolvePath where
  | single
  | iterative
deriving DecidableEq

/-- Path selection from `solve_network`: the configured `skip_iterations`
is forced to true when no line is capacity-extendable
(`if not n.lines.s_nom_extendable.any(): skip_iterations = True`). -/
def solveNetworkPath (cfgSkip : Bool) (n : Network) : SolvePath :=
  let skip := if !(n.lines.any (fun l => l.s_nom_extendable)) then true else cfgSkip
  if skip then SolvePath.single else SolvePath.iterative

/-- Observable actions of the status/condition check at the end of
`solve_network`. -/
inductive ReportAction where
  | logStatusWarning
  | logInfeasibilityReport
  | raiseRuntimeError
  | returnNetwork
deriving DecidableEq

/-- Trace of the outcome handling at the end of `solve_network`:
a warning is logged when `status != "ok"`; when `"infeasible" in
condition` the infeasibility diagnostics are computed and logged
(`compute_infeasibilities` / `print_infeasibilities`) and then a
`RuntimeError` is raised; otherwise the network is returned. -/
def solveNetworkOutcome (status condition : String) : List ReportAction :=
  (if status == "ok" then [] else [ReportAction.logStatusWarning]) ++
    (if strContainsStr condition "infeasible" then
        [ReportAction.logInfeasibilityReport, ReportAction.raiseRuntimeError]
      else [ReportAction.returnNetwork])

/-- C1: an infeasible termination condition makes `solve_network` compute
and log the infeasibility report and then raise, never returning the
network; a non-ok status without an infeasible condition only logs a
warning and returns the network. -/
theorem solve_outcome_infeasible_fatal (status condition : String) :
    (strContainsStr condition "infeasible" = true →
      (∃ pre, solveNetworkOutcome status condition =
          pre ++ [ReportAction.logInfeasibilityReport, ReportAction.raiseRuntimeError]) ∧
        ReportAction.returnNetwork ∉ solveNetworkOutcome status condition) ∧
    (status ≠ "ok" → strContainsStr condition "infeasible" = false →
      solveNetworkOutcome status condition =
        [ReportAction.logStatusWarning, ReportAction.returnNetwork]) := by
  constructor
  · intro hinf
    unfold solveNetworkOutcome
    rw [hinf]
    constructor
    · exact ⟨if status == "ok" then [] else [ReportAction.logStatusWarning], by simp⟩
    · rcases h : (status == "ok") with _ | _ <;> simp [h]
  · intro hst hinf
    unfold solveNetworkOutcome
    rw [hinf]
    have : (status == "ok") = false := by
      simpa using hst
    rw [this]
    simp

/-- Concrete instance of `solve_outcome_infeasible_fatal`: a solver run
ending with status `warning` and condition `infeasible` raises after the
report, while condition `time limit reached` only warns and returns. -/
theorem solve_outcome_infeasible_fatal_witness :
    ((∃ pre, solveNetworkOutcome "warning" "infeasible" =
        pre ++ [ReportAction.logInfeasibilityReport, ReportAction.raiseRuntimeError]) ∧
      ReportAction.returnNetwork ∉ solveNetworkOutcome "warning" "infeasible") ∧
    solveNetworkOutcome "warning" "time limit reached" =
      [ReportAction.logStatusWarning, ReportAction.returnNetwork] :=
  ⟨(solve_outcome_infeasible_fatal "warning" "infeasible").1 (by decide),
   (solve_outcome_infeasible_fatal "warning" "time limit reached").2
     (by decide) (by decide)⟩

/-- C2: when no line is extendable the single non-iterative path is chosen
whatever the configured `skip_iterations`; the iterative path is chosen
exactly when some line is extendable and `skip_iterations` is false. -/
theorem solve_path_selection (cfgSkip : Bool) (n : Network) :
    ((∀ l ∈ n.lines, l.s_nom_extendable = false) →
      solveNetworkPath cfgSkip n = SolvePath.single) ∧
    (solveNetworkPath cfgSkip n = SolvePath.iterative ↔
      (∃ l ∈ n.lines, l.s_nom_extendable = true) ∧ cfgSkip = false) := by
  constructor
  · intro hall
    have hany : n.lines.any (fun l => l.s_nom_extendable) = false := by
      rw [List.any_eq_false]
      intro l hl
      simp [hall l hl]
    simp [solveNetworkPath, hany]
  · constructor
    · intro hiter
      rcases hany : (n.lines.any fun l => l.s_nom_extendable) with _ | _
      · exfalso
        simp [solveNetworkPath, hany] at hiter
      · rcases hskip : cfgSkip with _ | _
        · refine ⟨?_, rfl⟩
          simpa [List.any_eq_true] using hany
        · exfalso
          simp [solveNetworkPath, hany, hskip] at hiter
    · rintro ⟨⟨l, hl, he⟩, hskip⟩
      have hany : n.lines.any (fun l => l.s_nom_extendable) = true := by
        simp only [List.any_eq_true]
        exact ⟨l, hl, he⟩
      simp [solveNetworkPath, hany, hskip]

/-! ## Configuration and constraint builders (`extra_functionality`) -/

/-- The slice of `snakemake.config` read by the constraint builders:
`electricity` (BAU minima, reserve margin, conventional carriers,
operational reserve), `policy_config.hydrogen` (temporal matching,
additionality, reference flag) and `sector.hydrogen` (network cap,
color shares, sequestration potential). -/
structure Config where
  bau_mincapacities : List (String × ℚ)
  safe_reservemargin : ℚ
  conventional_carriers : List String
  operational_reserve_activate : Bool
  temporal_matching : String
  additionality : Bool
  is_reference : Bool
  hydrogen_network : Bool
  hydrogen_network_limit : Option ℚ
  set_color_shares : Bool
  co2_sequestration_potential : Option ℚ
deriving DecidableEq

/-- Single-label lookup in a pandas-`Series`-like association list. -/
def mapLookup (m : List (String × ℚ)) (k : String) : Option ℚ :=
  (m.find? (fun p => p.1 == k)).map (fun p => p.2)

/-- Label-list indexing of a pandas `Series` (`mincaps[keys]`): returns the
values of all keys, and raises a `KeyError` as soon as a requested label is
missing (pandas refuses list indexers with missing labels). -/
def seriesSelect (m : List (String × ℚ)) : List String → Except String (List ℚ)
  | [] => Except.ok []
  | k :: ks =>
    match mapLookup m k with
    | none => Except.error ("KeyError: " ++ k)
    | some v =>
      match seriesSelect m ks with
      | Except.error e => Except.error e
      | Except.ok vs => Except.ok (v :: vs)

/-- Extendable generators of the network (`n.generators.query("p_nom_extendable")`). -/
def extGenerators (n : Network) : List Generator :=
  n.generators.filter (fun g => g.p_nom_extendable)

/-- Whether any generator is extendable (`n.generators.p_nom_extendable.any()`). -/
def anyExtendableGen (n : Network) : Bool :=
  n.generators.any (fun g => g.p_nom_extendable)

/-- Distinct carriers of the extendable generators, as grouped by the
`bau_mincaps` left-hand side. -/
def bauExtCarriers (n : Network) : List String :=
  ((extGenerators n).map (fun g => g.carrier)).dedup

/-- The `bau_mincaps` row of one carrier: total extendable capacity of the
carrier bounded below by the configured minimum. -/
def bauCarrierConstraint (ext : List Generator) (c : String) (r : ℚ) : Constraint :=
  { name := "bau_mincaps",
    lhs := (ext.filter (fun g => g.carrier == c)).map
      (fun g => { coeff := 1, var := genPnomVar g.name }),
    sense := Sense.ge, rhs := r }

/-- Embedding of `add_bau_constraints`: groups the extendable-capacity
variables by carrier and bounds each group by
`mincaps[lhs.indexes["carrier"]]`; the label-list lookup errors when an
extendable carrier is absent from `BAU_mincapacities`. -/
def add_bau_constraints (n : Network) (config : Config) :
    Except String (List Constraint) :=
  let ext := extGenerators n
  let carriers := bauExtCarriers n
  match seriesSelect config.bau_mincapacities carriers with
  | Except.error e => Except.error e
  | Except.ok rs =>
    Except.ok ((carriers.zip rs).map (fun p => bauCarrierConstraint ext p.1 p.2))

/-- Peak demand `n.loads_t.p_set.sum(axis=1).max()`. -/
def peakDemand (n : Network) : ℚ :=
  (n.loads_t_p_set.map List.sum).foldr max 0

/-- Embedding of `add_safe_constraints`: total extendable conventional
capacity must cover peak demand scaled by the reserve margin net of the
existing conventional capacity. -/
def add_safe_constraints (n : Network) (config : Config) : List Constraint :=
  let extConv := n.generators.filter
    (fun g => config.conventional_carriers.contains g.carrier && g.p_nom_extendable)
  let existing := ((n.generators.filter
    (fun g => !g.p_nom_extendable && config.conventional_carriers.contains g.carrier)).map
      (fun g => g.p_nom)).sum
  [{ name := "safe_mintotalcap",
     lhs := extConv.map (fun g => { coeff := 1, var := genPnomVar g.name }),
     sense := Sense.ge,
     rhs := peakDemand n * (1 + config.safe_reservemargin) - existing }]

/-- Name-level model of `add_ccl_constraints`: its per-(country, carrier)
bounds are read from an external `agg_p_nom_minmax` CSV file that is not
part of the embedded state, so only the pair of constraint groups it
defines is recorded; this is all the control flow of
`extra_functionality` observes. -/
def add_ccl_constraints (_n : Network) (_config : Config) : List Constraint :=
  [{ name := "agg_p_nom_min", lhs := [], sense := Sense.ge, rhs := 0 },
   { name := "agg_p_nom_max", lhs := [], sense := Sense.le, rhs := 0 }]

/-- Name-level model of `add_operational_reserve_margin`: records the
reserve-margin constraint and the tightened generator capacity
constraint it defines over the auxiliary reserve variables. -/
def add_operational_reserve_margin (_n : Network) (_config : Config) : List Constraint :=
  [{ name := "reserve_margin", lhs := [], sense := Sense.ge, rhs := 0 },
   { name := "gen_updated_capacity_constraint", lhs := [], sense := Sense.le, rhs := 0 }]

/-- Name-level model of `add_res_constraints` for one `RES` opts token:
records the renewable-share equality it defines. -/
def add_res_constraints (_n : Network) (_o : String) : List Constraint :=
  [{ name := "res_share", lhs := [], sense := Sense.eq, rhs := 0 }]

/-- Name-level model of `add_eq_constraints` for one `EQ` opts token:
records the equity-share inequality it defines. -/
def add_eq_constraints (_n : Network) (_o : String) : List Constraint :=
  [{ name := "equity_min", lhs := [], sense := Sense.ge, rhs := 0 }]

/-- Battery buses of the network
(`n.buses.index[n.buses.carrier == "battery"]`). -/
def batteryNodes (n : Network) : List Bus :=
  n.buses.filter (fun b => b.carrier == "battery")

/-- Efficiency column of the link of the given name
(`n.links.loc[name, "efficiency"]`). -/
def linkEfficiency (n : Network) (nm : String) : ℚ :=
  ((n.links.find? (fun l => l.name == nm)).map (fun l => l.efficiency)).getD 0

/-- Embedding of `add_battery_constraints`: no-op without battery buses;
otherwise one `link_charger_ratio` equality per battery bus relating the
charger and discharger capacity variables.  The discharger coefficient is
`-eff[0]`, the efficiency of the FIRST battery bus's discharger, applied
to every bus (the source multiplies the whole discharger vector by the
scalar `eff[0]`). -/
def add_battery_constraints (n : Network) : List Constraint :=
  match batteryNodes n with
  | [] => []
  | b0 :: rest =>
    let eff0 := linkEfficiency n (b0.name ++ " discharger")
    (b0 :: rest).map (fun b =>
      { name := "link_charger_ratio",
        lhs := [{ coeff := 1, var := linkPnomVar (b.name ++ " charger") },
                { coeff := -eff0, var := linkPnomVar (b.name ++ " discharger") }],
        sense := Sense.eq, rhs := 0 })

/-- Hydrogen-pipeline links
(`n.links.loc[n.links.carrier == "H2 pipeline"]`). -/
def h2Pipelines (n : Network) : List Link :=
  n.links.filter (fun l => l.carrier == "H2 pipeline")

/-- Embedding of `add_h2_network_cap`: returns without adding anything when
there is no hydrogen pipeline or no `("Link", "p_nom")` variable block
(no extendable link); otherwise adds the single `h2_network_cap` row
`sum(length * p_nom) <= cap * 1000` over the pipelines that carry a
capacity variable. -/
def add_h2_network_cap (n : Network) (cap : ℚ) : List Constraint :=
  let h2_network := h2Pipelines n
  if h2_network.isEmpty || !(n.links.any (fun l => l.p_nom_extendable)) then []
  else
    let subset := h2_network.filter (fun l => l.p_nom_extendable)
    [{ name := "h2_network_cap",
       lhs := subset.map (fun l => { coeff := l.length, var := linkPnomVar l.name }),
       sense := Sense.le, rhs := cap * 1000 }]

/-- Name-level model of `h2_export_yearly_constraint`: records the yearly
renewable-greenness row it defines (its content mixes dispatch variables
and load time series not inspected by any claim). -/
def h2_export_yearly_constraint (_n : Network) (_config : Config) : List Constraint :=
  [{ name := "H2ExportConstraint", lhs := [], sense := Sense.ge, rhs := 0 }]

/-- Name-level model of `monthly_constraints`: records the per-month
renewable-matching rows it defines as one group. -/
def monthly_constraints (_n : Network) (_config : Config) : List Constraint :=
  [{ name := "RESconstraints", lhs := [], sense := Sense.ge, rhs := 0 }]

/-- Name-level model of `set_h2_colors`: records the blue/pink hydrogen
share equalities it defines. -/
def set_h2_colors (_n : Network) (_config : Config) : List Constraint :=
  [{ name := "blue_h2_share", lhs := [], sense := Sense.eq, rhs := 0 },
   { name := "pink_h2_share", lhs := [], sense := Sense.eq, rhs := 0 }]

/-- Embedding of `add_co2_sequestration_limit`: no-op without a
`co2 stored` store or without the `("Store", "e")` variable block;
otherwise bounds the final-snapshot stored CO2 by the configured
sequestration potential (default 5) scaled by `1e6`. -/
def add_co2_sequestration_limit (n : Network) (config : Config) : List Constraint :=
  let co2_stores := n.stores.filter (fun s => s.carrier == "co2 stored")
  if co2_stores.isEmpty || n.stores.isEmpty then []
  else
    [{ name := "co2_sequestration_limit",
       lhs := co2_stores.map (fun s =>
         { coeff := 1, var := storeEVar (n.snapshots.getLast?.getD 0) s.name }),
       sense := Sense.le,
       rhs := (config.co2_sequestration_potential.getD 5) * 1000000 }]

/-- The hydrogen-export temporal-matching dispatch of
`extra_functionality`: yearly matching builds the yearly constraint,
monthly matching builds the monthly constraints (or only logs when
preparing the reference case), `no_res_matching` adds nothing, and any
other policy value raises a `ValueError`. -/
def h2ExportPolicy (n : Network) (config : Config) : Except String (List Constraint) :=
  if config.temporal_matching == "h2_yearly_matching" then
    Except.ok (h2_export_yearly_constraint n config)
  else if config.temporal_matching == "h2_monthly_matching" then
    Except.ok (if config.is_reference then [] else monthly_constraints n config)
  else if config.temporal_matching == "no_res_matching" then
    Except.ok []
  else
    Except.error "H2 export constraint is invalid, check config policy_config"

/-- Whether the configured hydrogen `network_limit` is truthy. -/
def h2LimitGuard (config : Config) : Bool :=
  match config.hydrogen_network_limit with
  | some c => !(decide (c = 0))
  | none => false

/-- A scenario opts token that activates one of the optional policy
builders of `extra_functionality`: the exact tokens `BAU`, `SAFE`, `CCL`,
or any token containing `RES` or `EQ` as a substring. -/
def recognizedPolicyToken (o : String) : Bool :=
  o == "BAU" || o == "SAFE" || o == "CCL" ||
    strContainsStr o "RES" || strContainsStr o "EQ"

/-- Embedding of `extra_functionality`: runs the optional builders gated
by opts tokens and config flags, the always-on battery constraints, the
hydrogen temporal-matching dispatch, the hydrogen network cap, the color
shares and the always-on CO2-sequestration limit, in source order.  The
result collects every constraint defined on the model; a raise in a
builder or in the temporal-matching dispatch propagates as an error. -/
def extra_functionality (n : Network) (config : Config) :
    Except String (List Constraint) :=
  match (if n.opts.contains "BAU" && anyExtendableGen n then
      add_bau_constraints n config
    else Except.ok []) with
  | Except.error e => Except.error e
  | Except.ok bau =>
    match h2ExportPolicy n config with
    | Except.error e => Except.error e
    | Except.ok h2 =>
      let safe := if n.opts.contains "SAFE" && anyExtendableGen n then
          add_safe_constraints n config else []
      let ccl := if n.opts.contains "CCL" && anyExtendableGen n then
          add_ccl_constraints n config else []
      let reserve := if config.operational_reserve_activate then
          add_operational_reserve_margin n config else []
      let resC := ((n.opts.filter (fun o => strContainsStr o "RES")).map
          (fun o => add_res_constraints n o)).flatten
      let eqC := ((n.opts.filter (fun o => strContainsStr o "EQ")).map
          (fun o => add_eq_constraints n o)).flatten
      let h2cap := if config.hydrogen_network && h2LimitGuard config then
          add_h2_network_cap n (config.hydrogen_network_limit.getD 0) else []
      let colors := if config.set_color_shares then set_h2_colors n config else []
      Except.ok (bau ++ safe ++ ccl ++ reserve ++ resC ++ eqC ++
        add_battery_constraints n ++ h2 ++ h2cap ++ colors ++
        add_co2_sequestration_limit n config)

/-! ## Concrete example inputs -/

/-- A network with every table empty, used as the base of the concrete
examples. -/
def emptyNetwork : Network :=
  { opts := [], buses := [], generators := [], lines := [], links := [],
    storage_units := [], stores := [], loads := [], carriers := [],
    global_constraints := [], snapshots := [], snapshot_weightings := [],
    generators_t_p_max_pu := [], generators_t_p_min_pu := [],
    storage_units_t_inflow := [], loads_t_p_set := [],
    line_volume_limit := none, line_volume_limit_dual := none }

/-- A configuration with every optional policy disabled. -/
def baseConfig : Config :=
  { bau_mincapacities := [], safe_reservemargin := 1/10,
    conventional_carriers := [], operational_reserve_activate := false,
    temporal_matching := "no_res_matching", additionality := false,
    is_reference := false, hydrogen_network := false,
    hydrogen_network_limit := none, set_color_shares := false,
    co2_sequestration_potential := none }

/-- An extendable 100 MW onwind generator. -/
def windGen : Generator :=
  { name := "w1", bus := "b1", carrier := "onwind", sign := 1,
    marginal_cost := 0, p_nom := 100, p_nom_extendable := true }

/-- An extendable 200 MW gas generator. -/
def gasGen : Generator :=
  { name := "g1", bus := "b2", carrier := "gas", sign := 1,
    marginal_cost := 0, p_nom := 200, p_nom_extendable := true }

/-- Two-bus network with one extendable wind and one extendable gas
generator (the BAU scenario of the specification). -/
def exBauNet : Network :=
  { emptyNetwork with opts := ["BAU"], generators := [windGen, gasGen] }

/-- An extendable link of the given name and efficiency. -/
def mkLink (nm : String) (eff : ℚ) : Link :=
  { name := nm, carrier := "battery link", efficiency := eff, length := 0,
    marginal_cost := 0, capital_cost := 0, p_nom_extendable := true }

/-- Network with two battery buses whose dischargers have different
efficiencies. -/
def exBatNet : Network :=
  { emptyNetwork with
    buses := [{ name := "b1", carrier := "battery" },
              { name := "b2", carrier := "battery" }],
    links := [mkLink "b1 charger" 1, mkLink "b1 discharger" (1/2),
              mkLink "b2 charger" 1, mkLink "b2 discharger" (1/3)] }

/-- A single extendable hydrogen pipeline of unit length. -/
def exPipe : Link :=
  { name := "p1", carrier := "H2 pipeline", efficiency := 1, length := 1,
    marginal_cost := 0, capital_cost := 0, p_nom_extendable := true }

/-- Network with one extendable hydrogen pipeline. -/
def exH2Net : Network := { emptyNetwork with links := [exPipe] }

/-- Network with unrecognized opts tokens, one battery bus and one CO2
store: only the always-on constraints apply. -/
def exAlwaysOnNet : Network :=
  { emptyNetwork with
    opts := ["Co2L", "144H"],
    buses := [{ name := "b1", carrier := "battery" }],
    links := [mkLink "b1 charger" 1, mkLink "b1 discharger" (9/10)],
    stores := [{ name := "s1", carrier := "co2 stored", marginal_cost := 0 }],
    snapshots := [0, 1] }

/-! ## Temporal-matching dispatch (C3) -/

/-- C3: the hydrogen temporal-matching dispatch of `extra_functionality`
errors exactly when the configured policy is none of `h2_yearly_matching`,
`h2_monthly_matching`, `no_res_matching`; each recognized value proceeds
with its yearly constraint, monthly constraint (none when preparing the
reference case) or no constraint. -/
theorem h2_policy_dispatch (n : Network) (config : Config) :
    (exceptOk (h2ExportPolicy n config) = false ↔
      ¬(config.temporal_matching = "h2_yearly_matching" ∨
        config.temporal_matching = "h2_monthly_matching" ∨
        config.temporal_matching = "no_res_matching")) ∧
    (config.temporal_matching = "h2_yearly_matching" →
      h2ExportPolicy n config = Except.ok (h2_export_yearly_constraint n config)) ∧
    (config.temporal_matching = "h2_monthly_matching" →
      h2ExportPolicy n config =
        Except.ok (if config.is_reference then [] else monthly_constraints n config)) ∧
    (config.temporal_matching = "no_res_matching" →
      h2ExportPolicy n config = Except.ok []) := by
  refine ⟨?_, ?_, ?_, ?_⟩
  · by_cases h1 : config.temporal_matching = "h2_yearly_matching"
    · simp [h2ExportPolicy, h1, exceptOk]
    · by_cases h2 : config.temporal_matching = "h2_monthly_matching"
      · by_cases hr : config.is_reference <;>
          simp [h2ExportPolicy, h1, h2, hr, exceptOk]
      · by_cases h3 : config.temporal_matching = "no_res_matching"
        · simp [h2ExportPolicy, h1, h2, h3, exceptOk]
        · simp [h2ExportPolicy, h1, h2, h3, exceptOk]
  · intro h1
    simp [h2ExportPolicy, h1]
  · intro h2
    have h1 : config.temporal_matching ≠ "h2_yearly_matching" := by
      rw [h2]; decide
    simp [h2ExportPolicy, h1, h2]
  · intro h3
    have h1 : config.temporal_matching ≠ "h2_yearly_matching" := by
      rw [h3]; decide
    have h2 : config.temporal_matching ≠ "h2_monthly_matching" := by
      rw [h3]; decide
    simp [h2ExportPolicy, h1, h2, h3]

/-- Concrete instance of `h2_policy_dispatch`: the unrecognized policy
`h2_weekly_matching` raises, and `no_res_matching` proceeds without any
export constraint. -/
theorem h2_policy_dispatch_witness :
    exceptOk (h2ExportPolicy emptyNetwork
      { baseConfig with temporal_matching := "h2_weekly_matching" }) = false ∧
    h2ExportPolicy emptyNetwork baseConfig = Except.ok [] :=
  ⟨(h2_policy_dispatch emptyNetwork
      { baseConfig with temporal_matching := "h2_weekly_matching" }).1.mpr (by decide),
   (h2_policy_dispatch emptyNetwork baseConfig).2.2.2 rfl⟩

/-! ## Hydrogen network capacity cap (C4) -/

/-- C4 counterexample: with a configured `network_limit` of 1 and a unit
pipeline, the single added constraint has right-hand side `1 * 1000`,
not the configured value 1. -/
theorem h2_cap_rhs_counterexample :
    (add_h2_network_cap exH2Net 1).map (fun c => c.rhs) = [1000] ∧
      ((1000 : ℚ) ≠ 1) := by
  constructor
  · have h : (add_h2_network_cap exH2Net 1).map (fun c => c.rhs) =
        [(1 : ℚ) * 1000] := rfl
    rw [h]
    norm_num
  · norm_num

/-- C4 amended: with no hydrogen pipeline or no extendable link the
builder adds nothing and does not raise; otherwise it adds the single
`h2_network_cap` row summing length-weighted capacity variables of the
pipelines carrying variables, bounded by `1000` times the configured
cap. -/
theorem h2_network_cap_row (n : Network) (cap : ℚ) :
    ((h2Pipelines n = [] ∨ (∀ l ∈ n.links, l.p_nom_extendable = false)) →
      add_h2_network_cap n cap = []) ∧
    (h2Pipelines n ≠ [] → (∃ l ∈ n.links, l.p_nom_extendable = true) →
      add_h2_network_cap n cap =
        [{ name := "h2_network_cap",
           lhs := ((h2Pipelines n).filter (fun l => l.p_nom_extendable)).map
             (fun l => { coeff := l.length, var := linkPnomVar l.name }),
           sense := Sense.le, rhs := cap * 1000 }]) := by
  constructor
  · rintro (h | h)
    · simp [add_h2_network_cap, h]
    · have hany : n.links.any (fun l => l.p_nom_extendable) = false := by
        rw [List.any_eq_false]
        intro l hl
        simp [h l hl]
      simp [add_h2_network_cap, hany]
  · intro hne hex
    have hany : n.links.any (fun l => l.p_nom_extendable) = true := by
      simp only [List.any_eq_true]
      rcases hex with ⟨l, hl, he⟩
      exact ⟨l, hl, he⟩
    have hemp : (h2Pipelines n).isEmpty = false := by
      rcases hp : h2Pipelines n with _ | _
      · exact absurd hp hne
      · rfl
    simp [add_h2_network_cap, hany, hemp]

/-- Concrete instance of `h2_network_cap_row`: the no-pipeline network
adds nothing, and the unit-pipeline network gets the single scaled row. -/
theorem h2_network_cap_row_witness :
    add_h2_network_cap emptyNetwork 5 = [] ∧
    add_h2_network_cap exH2Net 5 =
      [{ name := "h2_network_cap",
         lhs := ((h2Pipelines exH2Net).filter (fun l => l.p_nom_extendable)).map
           (fun l => { coeff := l.length, var := linkPnomVar l.name }),
         sense := Sense.le, rhs := 5 * 1000 }] :=
  ⟨(h2_network_cap_row emptyNetwork 5).1 (Or.inl rfl),
   (h2_network_cap_row exH2Net 5).2 (by decide) ⟨exPipe, by decide, rfl⟩⟩

/-! ## Battery charger/discharger symmetry (C5) -/

/-- C5 counterexample: on a network whose two battery buses have
discharger efficiencies 1/2 and 1/3, the constraint for the second bus
uses coefficient `-(1/2)` — the FIRST bus's discharger efficiency — even
though the second bus's own discharger efficiency is 1/3. -/
theorem battery_eff0_counterexample :
    (add_battery_constraints exBatNet).get? 1 = some
      { name := "link_charger_ratio",
        lhs := [{ coeff := 1, var := linkPnomVar "b2 charger" },
                { coeff := -(1/2), var := linkPnomVar "b2 discharger" }],
        sense := Sense.eq, rhs := 0 } ∧
    linkEfficiency exBatNet "b2 discharger" = 1/3 ∧
    ((-(1/2) : ℚ) ≠ -(1/3)) := by
  refine ⟨rfl, rfl, by norm_num⟩

/-- C5 amended: without battery buses nothing is added and nothing is
raised; with battery buses, every battery bus gets one equality
`charger_capacity - eff0 * discharger_capacity = 0` where `eff0` is the
efficiency of the first battery bus's discharger. -/
theorem battery_charger_ratio (n : Network) :
    (batteryNodes n = [] → add_battery_constraints n = []) ∧
    (∀ b0 rest, batteryNodes n = b0 :: rest →
      add_battery_constraints n = (b0 :: rest).map (fun b =>
        { name := "link_charger_ratio",
          lhs := [{ coeff := 1, var := linkPnomVar (b.name ++ " charger") },
                  { coeff := -(linkEfficiency n (b0.name ++ " discharger")),
                    var := linkPnomVar (b.name ++ " discharger") }],
          sense := Sense.eq, rhs := 0 })) := by
  constructor
  · intro h
    simp [add_battery_constraints, h]
  · intro b0 rest h
    simp [add_battery_constraints, h]

/-- Concrete instance of `battery_charger_ratio` on the two-battery-bus
network. -/
theorem battery_charger_ratio_witness :
    add_battery_constraints exBatNet =
      (({ name := "b1", carrier := "battery" } : Bus) ::
        [({ name := "b2", carrier := "battery" } : Bus)]).map (fun b =>
        { name := "link_charger_ratio",
          lhs := [{ coeff := 1, var := linkPnomVar (b.name ++ " charger") },
                  { coeff := -(linkEfficiency exBatNet ("b1" ++ " discharger")),
                    var := linkPnomVar (b.name ++ " discharger") }],
          sense := Sense.eq, rhs := 0 }) :=
  (battery_charger_ratio exBatNet).2 { name := "b1", carrier := "battery" }
    [{ name := "b2", carrier := "battery" }] (by decide)

/-! ## BAU minimum-capacity constraints (C6) -/

/-- Helper: label-list selection succeeds and returns the looked-up values
when every requested label is present. -/
theorem seriesSelect_eq_ok (m : List (String × ℚ)) (keys : List String)
    (h : ∀ k ∈ keys, (mapLookup m k).isSome = true) :
    seriesSelect m keys =
      Except.ok (keys.map (fun k => (mapLookup m k).getD 0)) := by
  induction keys with
  | nil => rfl
  | cons k ks ih =>
    have hk := h k (by simp)
    rcases hv : mapLookup m k with _ | v
    · rw [hv] at hk
      simp at hk
    · have hrest := ih (fun x hx => h x (by simp [hx]))
      simp [seriesSelect, hv, hrest]

/-- Helper: zipping a list with its own image collapses to a single map. -/
theorem zip_map_self {α β : Type} (f : α → β) (l : List α) :
    l.zip (l.map f) = l.map (fun a => (a, f a)) := by
  induction l with
  | nil => rfl
  | cons a t ih => simp [ih]

/-- C6 counterexample: on the two-generator BAU network whose map names
only `gas`, the builder raises a lookup error even though the claim says
carriers absent from the map are silently unconstrained (`gas` itself is
present and both generators are extendable). -/
theorem bau_missing_carrier_counterexample :
    exceptOk (add_bau_constraints exBauNet
      { baseConfig with bau_mincapacities := [("gas", 150000)] }) = false ∧
    mapLookup [("gas", (150000 : ℚ))] "gas" = some 150000 ∧
    (∀ g ∈ exBauNet.generators, g.p_nom_extendable = true) := by decide

/-- C6 amended: when every extendable-generator carrier appears in
`BAU_mincapacities`, the builder adds one row per extendable carrier
bounding the carrier's total extendable capacity below by the mapped
minimum (map entries without extendable generators are ignored); when an
extendable carrier is absent from the map, the label lookup errors
instead of leaving the carrier unconstrained. -/
theorem bau_min_capacity_rows (n : Network) (config : Config)
    (h : ∀ g ∈ n.generators, g.p_nom_extendable = true →
      (mapLookup config.bau_mincapacities g.carrier).isSome = true) :
    add_bau_constraints n config = Except.ok ((bauExtCarriers n).map
      (fun c => bauCarrierConstraint (extGenerators n) c
        ((mapLookup config.bau_mincapacities c).getD 0))) := by
  have hkeys : ∀ k ∈ bauExtCarriers n,
      (mapLookup config.bau_mincapacities k).isSome = true := by
    intro k hk
    rw [bauExtCarriers, List.mem_dedup] at hk
    rcases List.mem_map.mp hk with ⟨g, hg, rfl⟩
    rw [extGenerators] at hg
    have hg' := List.mem_filter.mp hg
    exact h g hg'.1 (by simpa using hg'.2)
  simp only [add_bau_constraints]
  rw [seriesSelect_eq_ok _ _ hkeys]
  simp [zip_map_self]

/-- Concrete instance of `bau_min_capacity_rows`: with both carriers in
the map the wind and gas rows are produced. -/
theorem bau_min_capacity_rows_witness :
    add_bau_constraints exBauNet
      { baseConfig with bau_mincapacities := [("gas", 150000), ("onwind", 0)] } =
      Except.ok ((bauExtCarriers exBauNet).map
        (fun c => bauCarrierConstraint (extGenerators exBauNet) c
          ((mapLookup [("gas", 150000), ("onwind", 0)] c).getD 0))) :=
  bau_min_capacity_rows exBauNet
    { baseConfig with bau_mincapacities := [("gas", 150000), ("onwind", 0)] }
    (by decide)

/-! ## Constraint assembly is a no-op without policy tokens (C7) -/

/-- C7: with no recognized policy token in opts, the operational reserve
off, the hydrogen network and color-share features off and temporal
matching set to `no_res_matching`, `extra_functionality` adds exactly the
always-on constraints: the battery symmetry rows and the
CO2-sequestration limit (each of which is empty when its components are
absent). -/
theorem extra_functionality_noop (n : Network) (config : Config)
    (hopts : ∀ o ∈ n.opts, recognizedPolicyToken o = false)
    (hres : config.operational_reserve_activate = false)
    (hnet : config.hydrogen_network = false)
    (hcol : config.set_color_shares = false)
    (htm : config.temporal_matching = "no_res_matching") :
    extra_functionality n config = Except.ok
      (add_battery_constraints n ++ add_co2_sequestration_limit n config) := by
  have hBAU : "BAU" ∉ n.opts := by
    intro hm
    have := hopts _ hm
    simp [recognizedPolicyToken] at this
  have hSAFE : "SAFE" ∉ n.opts := by
    intro hm
    have := hopts _ hm
    simp [recognizedPolicyToken] at this
  have hCCL : "CCL" ∉ n.opts := by
    intro hm
    have := hopts _ hm
    simp [recognizedPolicyToken] at this
  have hRES : n.opts.filter (fun o => strContainsStr o "RES") = [] := by
    rw [List.filter_eq_nil_iff]
    intro o ho
    have h := hopts o ho
    simp only [recognizedPolicyToken, Bool.or_eq_false_iff] at h
    simp [h.1.2]
  have hEQ : n.opts.filter (fun o => strContainsStr o "EQ") = [] := by
    rw [List.filter_eq_nil_iff]
    intro o ho
    have h := hopts o ho
    simp only [recognizedPolicyToken, Bool.or_eq_false_iff] at h
    simp [h.2]
  have hpol : h2ExportPolicy n config = Except.ok [] := by
    simp [h2ExportPolicy, htm]
  simp [extra_functionality, hBAU, hSAFE, hCCL, hres, hnet, hcol, hRES, hEQ, hpol]

/-- Concrete instance of `extra_functionality_noop`: the `Co2L-144H` opts
add only the battery row of the single battery bus and the CO2 limit of
the single CO2 store. -/
theorem extra_functionality_noop_witness :
    extra_functionality exAlwaysOnNet baseConfig = Except.ok
      (add_battery_constraints exAlwaysOnNet ++
        add_co2_sequestration_limit exAlwaysOnNet baseConfig) :=
  extra_functionality_noop exAlwaysOnNet baseConfig (by decide) rfl rfl rfl rfl

/-! ## Network preparation (`prepare_network`) -/

/-- The slice of `solving: options` read by `prepare_network`:
`clip_p_max_pu` is present-or-absent, `load_shedding`/`noisy_costs` are
truthy flags and `nhours` is a truthy integer. -/
structure SolveOpts where
  clip_p_max_pu : Option ℚ
  load_shedding : Bool
  noisy_costs : Bool
  nhours : Option Nat
deriving DecidableEq

/-- Pointwise clipping of one per-snapshot row:
`df.where(df > clip_p_max_pu, other=0.0)` keeps values strictly above the
threshold and floors the rest to zero. -/
def clipSeries (c : ℚ) (xs : List ℚ) : List ℚ :=
  xs.map (fun v => if c < v then v else 0)

/-- Row-wise clipping of a whole time-series frame. -/
def clipFrame (c : ℚ) (f : List (List ℚ)) : List (List ℚ) :=
  f.map (clipSeries c)

/-- Clipping step of `prepare_network`: when `clip_p_max_pu` is configured,
floors the availability, minimum-output and inflow frames. -/
def clipStep (o : Option ℚ) (n : Network) : Network :=
  match o with
  | some c =>
    { n with
      generators_t_p_max_pu := clipFrame c n.generators_t_p_max_pu,
      generators_t_p_min_pu := clipFrame c n.generators_t_p_min_pu,
      storage_units_t_inflow := clipFrame c n.storage_units_t_inflow }
  | none => n

/-- Line-volume-limit step of `prepare_network`: when an `lv_limit` global
constraint exists, copies its `constant` and `mu` columns onto the network
attributes. -/
def lvLimitStep (n : Network) : Network :=
  match n.global_constraints.find? (fun g => g.name == "lv_limit") with
  | some g =>
    { n with line_volume_limit := some g.constant,
             line_volume_limit_dual := some g.mu }
  | none => n

/-- Load-shedding injection of `prepare_network`: adds the `Load` carrier
and one ` load` slack generator per bus with sign `1e-3`, marginal cost
`1e2` and capacity `1e9`. -/
def addLoadShedding (n : Network) : Network :=
  { n with
    carriers := n.carriers ++ ["Load"],
    generators := n.generators ++ n.buses.map (fun b =>
      { name := b.name ++ " load", bus := b.name, carrier := "load",
        sign := 1/1000, marginal_cost := 100, p_nom := 1000000000,
        p_nom_extendable := false }) }

/-- Load-shedding step, gated by the `load_shedding` flag. -/
def loadShedStep (b : Bool) (n : Network) : Network :=
  if b then addLoadShedding n else n

/-- Cost-noise injection of `prepare_network`.  Each component type with a
`marginal_cost` column receives `1e-2 + 2e-3 * (r_i - 0.5)` on row `i` and
lines/links receive `(1e-1 + 2e-2 * (s_i - 0.5)) * length` on
`capital_cost`.  NumPy is re-seeded per component type (seed 174 for the
marginal-cost pass, seed 123 for the capital-cost pass), so every type
sees the same stream; the two fixed-seed pseudo-random streams are
abstracted as the parameters `draw174` and `draw123`. -/
def addNoisyCosts (draw174 draw123 : Nat → ℚ) (n : Network) : Network :=
  { n with
    generators := n.generators.enum.map (fun p =>
      { p.2 with marginal_cost :=
          p.2.marginal_cost + (1/100 + (1/500) * (draw174 p.1 - 1/2)) }),
    storage_units := n.storage_units.enum.map (fun p =>
      { p.2 with marginal_cost :=
          p.2.marginal_cost + (1/100 + (1/500) * (draw174 p.1 - 1/2)) }),
    stores := n.stores.enum.map (fun p =>
      { p.2 with marginal_cost :=
          p.2.marginal_cost + (1/100 + (1/500) * (draw174 p.1 - 1/2)) }),
    lines := n.lines.enum.map (fun p =>
      { p.2 with capital_cost :=
          p.2.capital_cost + (1/10 + (1/50) * (draw123 p.1 - 1/2)) * p.2.length }),
    links := n.links.enum.map (fun p =>
      { p.2 with
        marginal_cost :=
          p.2.marginal_cost + (1/100 + (1/500) * (draw174 p.1 - 1/2)),
        capital_cost :=
          p.2.capital_cost + (1/10 + (1/50) * (draw123 p.1 - 1/2)) * p.2.length }) }

/-- Cost-noise step, gated by the `noisy_costs` flag. -/
def noisyStep (b : Bool) (draw174 draw123 : Nat → ℚ) (n : Network) : Network :=
  if b then addNoisyCosts draw174 draw123 n else n

/-- Snapshot truncation of `prepare_network`:
`n.set_snapshots(n.snapshots[:nhours])` keeps the first `nhours` snapshots
(reindexing the per-snapshot frames accordingly) and
`n.snapshot_weightings[:] = 8760.0 / nhours` overwrites every retained
weighting. -/
def truncateSnapshots (N : Nat) (n : Network) : Network :=
  let snaps := n.snapshots.take N
  { n with
    snapshots := snaps,
    snapshot_weightings := List.replicate snaps.length (8760 / (N : ℚ)),
    generators_t_p_max_pu := n.generators_t_p_max_pu.take N,
    generators_t_p_min_pu := n.generators_t_p_min_pu.take N,
    storage_units_t_inflow := n.storage_units_t_inflow.take N,
    loads_t_p_set := n.loads_t_p_set.take N }

/-- Snapshot-truncation step: `solve_opts.get("nhours")` is truthy only for
a present nonzero value. -/
def nhoursStep (o : Option Nat) (n : Network) : Network :=
  match o with
  | some N => if N == 0 then n else truncateSnapshots N n
  | none => n

/-- Land-use step of `prepare_network`: in myopic foresight,
`add_land_use_constraint` rewrites the generator table (reducing
`p_nom_max` by capacity built at earlier horizons, clipped at zero); its
arithmetic depends on snakemake wildcards outside the embedded state, so
the generator-table rewrite is abstracted as the parameter `landUse`. -/
def landUseStep (foresight : String) (landUse : List Generator → List Generator)
    (n : Network) : Network :=
  if foresight == "myopic" then { n with generators := landUse n.generators } else n

/-- Embedding of `prepare_network`: clipping, `lv_limit` attributes, load
shedding, cost noise, snapshot truncation and the myopic land-use pass, in
source order. -/
def prepare_network (landUse : List Generator → List Generator)
    (draw174 draw123 : Nat → ℚ) (foresight : String)
    (solve_opts : SolveOpts) (n : Network) : Network :=
  landUseStep foresight landUse
    (nhoursStep solve_opts.nhours
      (noisyStep solve_opts.noisy_costs draw174 draw123
        (loadShedStep solve_opts.load_shedding
          (lvLimitStep
            (clipStep solve_opts.clip_p_max_pu n)))))

/-- Entry of a time-series frame at row `i`, column `j`. -/
def entryAt (f : List (List ℚ)) (i j : Nat) : Option ℚ :=
  match f[i]? with
  | some r => r[j]?
  | none => none

/-- The frame `new` is an entrywise clipping of `old` at threshold `c`:
every surviving entry is zero when the prior value was at most `c` and
unchanged when it was strictly greater. -/
def ClippedFrame (c : ℚ) (old new : List (List ℚ)) : Prop :=
  ∀ i j v, entryAt new i j = some v →
    ∃ w, entryAt old i j = some w ∧ (w ≤ c → v = 0) ∧ (c < w → v = w)

theorem clipFrame_clipped (c : ℚ) (f : List (List ℚ)) :
    ClippedFrame c f (clipFrame c f) := by
  intro i j v hv
  unfold entryAt clipFrame at hv
  rw [List.getElem?_map] at hv
  unfold entryAt
  rcases hrow : f[i]? with _ | row
  · rw [hrow] at hv
    simp at hv
  · rw [hrow] at hv
    simp only [Option.map_some'] at hv
    unfold clipSeries at hv
    rw [List.getElem?_map] at hv
    rcases hw : row[j]? with _ | w
    · rw [hw] at hv
      simp at hv
    · rw [hw] at hv
      simp only [Option.map_some', Option.some_inj] at hv
      refine ⟨w, ?_, ?_, ?_⟩
      · exact hw
      · intro hle
        rw [← hv, if_neg (not_lt.mpr hle)]
      · intro hlt
        rw [← hv, if_pos hlt]

theorem take_getElem?_some {α : Type} :
    ∀ (N i : Nat) (l : List α) (v : α), (l.take N)[i]? = some v → l[i]? = some v := by
  intro N
  induction N with
  | zero =>
    intro i l v h
    simp at h
  | succ N ih =>
    intro i l v h
    rcases l with _ | ⟨a, t⟩
    · simp at h
    · rcases i with _ | i
      · simpa using h
      · simp only [List.take_succ_cons, List.getElem?_cons_succ] at h ⊢
        exact ih i t v h

theorem clippedFrame_take (c : ℚ) (old new : List (List ℚ)) (N : Nat)
    (h : ClippedFrame c old new) : ClippedFrame c old (new.take N) := by
  intro i j v hv
  unfold entryAt at hv
  rcases hrow : (new.take N)[i]? with _ | row
  · rw [hrow] at hv
    exact absurd hv (by simp)
  · rw [hrow] at hv
    have hrow' := take_getElem?_some N i new row hrow
    refine h i j v ?_
    unfold entryAt
    rw [hrow']
    exact hv

theorem lvLimitStep_series (n : Network) :
    (lvLimitStep n).generators_t_p_max_pu = n.generators_t_p_max_pu ∧
    (lvLimitStep n).generators_t_p_min_pu = n.generators_t_p_min_pu ∧
    (lvLimitStep n).storage_units_t_inflow = n.storage_units_t_inflow ∧
    (lvLimitStep n).snapshots = n.snapshots ∧
    (lvLimitStep n).snapshot_weightings = n.snapshot_weightings := by
  unfold lvLimitStep
  split <;> exact ⟨rfl, rfl, rfl, rfl, rfl⟩

theorem loadShedStep_series (b : Bool) (n : Network) :
    (loadShedStep b n).generators_t_p_max_pu = n.generators_t_p_max_pu ∧
    (loadShedStep b n).generators_t_p_min_pu = n.generators_t_p_min_pu ∧
    (loadShedStep b n).storage_units_t_inflow = n.storage_units_t_inflow ∧
    (loadShedStep b n).snapshots = n.snapshots ∧
    (loadShedStep b n).snapshot_weightings = n.snapshot_weightings := by
  cases b <;> exact ⟨rfl, rfl, rfl, rfl, rfl⟩

theorem noisyStep_series (b : Bool) (draw174 draw123 : Nat → ℚ) (n : Network) :
    (noisyStep b draw174 draw123 n).generators_t_p_max_pu = n.generators_t_p_max_pu ∧
    (noisyStep b draw174 draw123 n).generators_t_p_min_pu = n.generators_t_p_min_pu ∧
    (noisyStep b draw174 draw123 n).storage_units_t_inflow = n.storage_units_t_inflow ∧
    (noisyStep b draw174 draw123 n).snapshots = n.snapshots ∧
    (noisyStep b draw174 draw123 n).snapshot_weightings = n.snapshot_weightings := by
  cases b <;> exact ⟨rfl, rfl, rfl, rfl, rfl⟩

theorem landUseStep_series (foresight : String)
    (landUse : List Generator → List Generator) (n : Network) :
    (landUseStep foresight landUse n).generators_t_p_max_pu = n.generators_t_p_max_pu ∧
    (landUseStep foresight landUse n).generators_t_p_min_pu = n.generators_t_p_min_pu ∧
    (landUseStep foresight landUse n).storage_units_t_inflow = n.storage_units_t_inflow ∧
    (landUseStep foresight landUse n).snapshots = n.snapshots ∧
    (landUseStep foresight landUse n).snapshot_weightings = n.snapshot_weightings := by
  unfold landUseStep
  split <;> exact ⟨rfl, rfl, rfl, rfl, rfl⟩

theorem clipStep_snapshots (o : Option ℚ) (n : Network) :
    (clipStep o n).snapshots = n.snapshots ∧
    (clipStep o n).snapshot_weightings = n.snapshot_weightings := by
  cases o <;> exact ⟨rfl, rfl⟩

theorem nhoursStep_frames (o : Option Nat) (m : Network) :
    ((nhoursStep o m).generators_t_p_max_pu = m.generators_t_p_max_pu ∧
      (nhoursStep o m).generators_t_p_min_pu = m.generators_t_p_min_pu ∧
      (nhoursStep o m).storage_units_t_inflow = m.storage_units_t_inflow) ∨
    (∃ N, (nhoursStep o m).generators_t_p_max_pu = m.generators_t_p_max_pu.take N ∧
      (nhoursStep o m).generators_t_p_min_pu = m.generators_t_p_min_pu.take N ∧
      (nhoursStep o m).storage_units_t_inflow = m.storage_units_t_inflow.take N) := by
  rcases o with _ | N
  · exact Or.inl ⟨rfl, rfl, rfl⟩
  · rcases h0 : (N == 0) with _ | _
    · have hstep : nhoursStep (some N) m = truncateSnapshots N m := by
        show (if (N == 0) = true then m else truncateSnapshots N m) = truncateSnapshots N m
        rw [h0]
        simp
      rw [hstep]
      exact Or.inr ⟨N, rfl, rfl, rfl⟩
    · have hstep : nhoursStep (some N) m = m := by
        show (if (N == 0) = true then m else truncateSnapshots N m) = m
        rw [h0]
        simp
      rw [hstep]
      exact Or.inl ⟨rfl, rfl, rfl⟩

/-- C8: after `prepare_network` with a configured clip threshold, every
surviving entry of the availability, minimum-output and storage-inflow
frames is zero when its prior value was at most the threshold and
unchanged when it was strictly greater, whatever the remaining options. -/
theorem prepare_network_clips (landUse : List Generator → List Generator)
    (draw174 draw123 : Nat → ℚ) (foresight : String)
    (solve_opts : SolveOpts) (n : Network) (c : ℚ)
    (hclip : solve_opts.clip_p_max_pu = some c) :
    ClippedFrame c n.generators_t_p_max_pu
      (prepare_network landUse draw174 draw123 foresight solve_opts n).generators_t_p_max_pu ∧
    ClippedFrame c n.generators_t_p_min_pu
      (prepare_network landUse draw174 draw123 foresight solve_opts n).generators_t_p_min_pu ∧
    ClippedFrame c n.storage_units_t_inflow
      (prepare_network landUse draw174 draw123 foresight solve_opts n).storage_units_t_inflow := by
  have c1 : (clipStep solve_opts.clip_p_max_pu n).generators_t_p_max_pu =
      clipFrame c n.generators_t_p_max_pu := by
    rw [hclip]
    rfl
  have c2 : (clipStep solve_opts.clip_p_max_pu n).generators_t_p_min_pu =
      clipFrame c n.generators_t_p_min_pu := by
    rw [hclip]
    rfl
  have c3 : (clipStep solve_opts.clip_p_max_pu n).storage_units_t_inflow =
      clipFrame c n.storage_units_t_inflow := by
    rw [hclip]
    rfl
  obtain ⟨s1, s2, s3, -, -⟩ := lvLimitStep_series (clipStep solve_opts.clip_p_max_pu n)
  obtain ⟨t1, t2, t3, -, -⟩ := loadShedStep_series solve_opts.load_shedding
    (lvLimitStep (clipStep solve_opts.clip_p_max_pu n))
  obtain ⟨u1, u2, u3, -, -⟩ := noisyStep_series solve_opts.noisy_costs draw174 draw123
    (loadShedStep solve_opts.load_shedding
      (lvLimitStep (clipStep solve_opts.clip_p_max_pu n)))
  obtain ⟨w1, w2, w3, -, -⟩ := landUseStep_series foresight landUse
    (nhoursStep solve_opts.nhours
      (noisyStep solve_opts.noisy_costs draw174 draw123
        (loadShedStep solve_opts.load_shedding
          (lvLimitStep (clipStep solve_opts.clip_p_max_pu n)))))
  have b1 : (noisyStep solve_opts.noisy_costs draw174 draw123
      (loadShedStep solve_opts.load_shedding
        (lvLimitStep (clipStep solve_opts.clip_p_max_pu n)))).generators_t_p_max_pu =
      clipFrame c n.generators_t_p_max_pu := by rw [u1, t1, s1, c1]
  have b2 : (noisyStep solve_opts.noisy_costs draw174 draw123
      (loadShedStep solve_opts.load_shedding
        (lvLimitStep (clipStep solve_opts.clip_p_max_pu n)))).generators_t_p_min_pu =
      clipFrame c n.generators_t_p_min_pu := by rw [u2, t2, s2, c2]
  have b3 : (noisyStep solve_opts.noisy_costs draw174 draw123
      (loadShedStep solve_opts.load_shedding
        (lvLimitStep (clipStep solve_opts.clip_p_max_pu n)))).storage_units_t_inflow =
      clipFrame c n.storage_units_t_inflow := by rw [u3, t3, s3, c3]
  unfold prepare_network
  rcases nhoursStep_frames solve_opts.nhours
      (noisyStep solve_opts.noisy_costs draw174 draw123
        (loadShedStep solve_opts.load_shedding
          (lvLimitStep (clipStep solve_opts.clip_p_max_pu n)))) with
    ⟨f1, f2, f3⟩ | ⟨N, f1, f2, f3⟩
  · rw [w1, w2, w3, f1, f2, f3, b1, b2, b3]
    exact ⟨clipFrame_clipped c _, clipFrame_clipped c _, clipFrame_clipped c _⟩
  · rw [w1, w2, w3, f1, f2, f3, b1, b2, b3]
    exact ⟨clippedFrame_take c _ _ N (clipFrame_clipped c _),
      clippedFrame_take c _ _ N (clipFrame_clipped c _),
      clippedFrame_take c _ _ N (clipFrame_clipped c _)⟩

/-- Options enabling only clipping at threshold 1/50. -/
def exClipOpts : SolveOpts :=
  { clip_p_max_pu := some (1/50), load_shedding := false,
    noisy_costs := false, nhours := none }

/-- Network with small availability/minimum-output/inflow entries on both
sides of the clip threshold. -/
def exClipNet : Network :=
  { emptyNetwork with
    snapshots := [0, 1],
    snapshot_weightings := [4380, 4380],
    generators_t_p_max_pu := [[0, 1/2], [1, 1/100]],
    generators_t_p_min_pu := [[1/100, 3/4]],
    storage_units_t_inflow := [[3, 1/100]] }

/-- Concrete instance of `prepare_network_clips` at threshold 1/50. -/
theorem prepare_network_clips_witness :
    ClippedFrame (1/50) exClipNet.generators_t_p_max_pu
      (prepare_network (fun gs => gs) (fun _ => 0) (fun _ => 0) "overnight"
        exClipOpts exClipNet).generators_t_p_max_pu ∧
    ClippedFrame (1/50) exClipNet.generators_t_p_min_pu
      (prepare_network (fun gs => gs) (fun _ => 0) (fun _ => 0) "overnight"
        exClipOpts exClipNet).generators_t_p_min_pu ∧
    ClippedFrame (1/50) exClipNet.storage_units_t_inflow
      (prepare_network (fun gs => gs) (fun _ => 0) (fun _ => 0) "overnight"
        exClipOpts exClipNet).storage_units_t_inflow :=
  prepare_network_clips (fun gs => gs) (fun _ => 0) (fun _ => 0) "overnight"
    exClipOpts exClipNet (1/50) rfl

/-! ## Snapshot truncation (C9) -/

/-- Options requesting truncation to the first 2 snapshots. -/
def exOptsN2 : SolveOpts :=
  { clip_p_max_pu := none, load_shedding := false,
    noisy_costs := false, nhours := some 2 }

/-- Network with a single snapshot — fewer than the requested `nhours`. -/
def exTinyNet : Network :=
  { emptyNetwork with snapshots := [0], snapshot_weightings := [1] }

/-- C9 counterexample: on a network with one snapshot and `nhours = 2`
(which satisfies `N ≥ 1`), the retained weightings sum to 4380, not 8760:
the claim's universal quantification over every network fails when the
network has fewer than `N` snapshots. -/
theorem nhours_sum_counterexample :
    (1 ≤ 2) ∧
    (prepare_network (fun gs => gs) (fun _ => 0) (fun _ => 0) "overnight"
        exOptsN2 exTinyNet).snapshot_weightings.sum ≠ 8760 := by
  refine ⟨by norm_num, ?_⟩
  have h : (prepare_network (fun gs => gs) (fun _ => 0) (fun _ => 0) "overnight"
      exOptsN2 exTinyNet).snapshot_weightings = [(8760 : ℚ) / ((2 : Nat) : ℚ)] := rfl
  rw [h]
  norm_num

/-- C9 amended: on a network with at least `N` snapshots and configured
`nhours = N ≥ 1`, `prepare_network` keeps exactly the first `N` snapshots,
sets every retained weighting to `8760 / N`, and the retained weightings
sum to 8760; with fewer than `N` snapshots all snapshots are kept with
weighting `8760 / N` each, so the sum falls short of 8760. -/
theorem nhours_truncation (landUse : List Generator → List Generator)
    (draw174 draw123 : Nat → ℚ) (foresight : String)
    (solve_opts : SolveOpts) (n : Network) (N : Nat)
    (hnh : solve_opts.nhours = some N) (hN : 1 ≤ N)
    (hlen : N ≤ n.snapshots.length) :
    (prepare_network landUse draw174 draw123 foresight solve_opts n).snapshots =
      n.snapshots.take N ∧
    (prepare_network landUse draw174 draw123 foresight solve_opts n).snapshot_weightings =
      List.replicate N (8760 / (N : ℚ)) ∧
    (prepare_network landUse draw174 draw123 foresight solve_opts n).snapshot_weightings.sum
      = 8760 := by
  obtain ⟨hs0, hw0⟩ := clipStep_snapshots solve_opts.clip_p_max_pu n
  obtain ⟨-, -, -, hs1, hw1⟩ := lvLimitStep_series (clipStep solve_opts.clip_p_max_pu n)
  obtain ⟨-, -, -, hs2, hw2⟩ := loadShedStep_series solve_opts.load_shedding
    (lvLimitStep (clipStep solve_opts.clip_p_max_pu n))
  obtain ⟨-, -, -, hs3, hw3⟩ := noisyStep_series solve_opts.noisy_costs draw174 draw123
    (loadShedStep solve_opts.load_shedding
      (lvLimitStep (clipStep solve_opts.clip_p_max_pu n)))
  unfold prepare_network
  set m := noisyStep solve_opts.noisy_costs draw174 draw123
    (loadShedStep solve_opts.load_shedding
      (lvLimitStep (clipStep solve_opts.clip_p_max_pu n))) with hm
  have hms : m.snapshots = n.snapshots := by
    rw [hm, hs3, hs2, hs1, hs0]
  have hNne : N ≠ 0 := Nat.one_le_iff_ne_zero.mp hN
  have h0 : (N == 0) = false := by
    simp [hNne]
  have hstep : nhoursStep solve_opts.nhours m = truncateSnapshots N m := by
    rw [hnh]
    show (if (N == 0) = true then m else truncateSnapshots N m) = truncateSnapshots N m
    rw [h0]
    simp
  obtain ⟨-, -, -, hs4, hw4⟩ := landUseStep_series foresight landUse
    (nhoursStep solve_opts.nhours m)
  have hlen' : (m.snapshots.take N).length = N := by
    rw [hms, List.length_take]
    exact Nat.min_eq_left hlen
  have hsnap : (landUseStep foresight landUse
      (nhoursStep solve_opts.nhours m)).snapshots = n.snapshots.take N := by
    rw [hs4, hstep]
    show m.snapshots.take N = n.snapshots.take N
    rw [hms]
  have hwei : (landUseStep foresight landUse
      (nhoursStep solve_opts.nhours m)).snapshot_weightings =
      List.replicate N (8760 / (N : ℚ)) := by
    rw [hw4, hstep]
    show List.replicate (m.snapshots.take N).length (8760 / (N : ℚ)) =
      List.replicate N (8760 / (N : ℚ))
    rw [hlen']
  refine ⟨hsnap, hwei, ?_⟩
  rw [hwei, List.sum_replicate, nsmul_eq_mul]
  have hcast : ((N : ℚ)) ≠ 0 := Nat.cast_ne_zero.mpr hNne
  field_simp

/-- Network with three snapshots, for the truncation witness. -/
def exThreeNet : Network :=
  { emptyNetwork with snapshots := [0, 1, 2], snapshot_weightings := [1, 1, 1] }

/-- Concrete instance of `nhours_truncation` with `N = 2` on a
three-snapshot network. -/
theorem nhours_truncation_witness :
    (prepare_network (fun gs => gs) (fun _ => 0) (fun _ => 0) "overnight"
        exOptsN2 exThreeNet).snapshots = exThreeNet.snapshots.take 2 ∧
    (prepare_network (fun gs => gs) (fun _ => 0) (fun _ => 0) "overnight"
        exOptsN2 exThreeNet).snapshot_weightings =
      List.replicate 2 (8760 / ((2 : Nat) : ℚ)) ∧
    (prepare_network (fun gs => gs) (fun _ => 0) (fun _ => 0) "overnight"
        exOptsN2 exThreeNet).snapshot_weightings.sum = 8760 :=
  nhours_truncation (fun gs => gs) (fun _ => 0) (fun _ => 0) "overnight"
    exOptsN2 exThreeNet 2 rfl (by norm_num) (by decide)

/-! ## Frame property of clip-only preparation (C10) -/

/-- C10: with only clipping configured (load shedding, cost noise and
truncation off, foresight not myopic, no `lv_limit` global constraint),
`prepare_network` changes exactly the three clipped frames: the returned
network is the input with the availability, minimum-output and inflow
frames replaced, every other field identical. -/
theorem prepare_network_frame (landUse : List Generator → List Generator)
    (draw174 draw123 : Nat → ℚ) (foresight : String)
    (solve_opts : SolveOpts) (n : Network) (c : ℚ)
    (hclip : solve_opts.clip_p_max_pu = some c)
    (hshed : solve_opts.load_shedding = false)
    (hnoise : solve_opts.noisy_costs = false)
    (hnh : solve_opts.nhours = none)
    (hfore : foresight ≠ "myopic")
    (hlv : ∀ g ∈ n.global_constraints, g.name ≠ "lv_limit") :
    prepare_network landUse draw174 draw123 foresight solve_opts n =
      { n with
        generators_t_p_max_pu := clipFrame c n.generators_t_p_max_pu,
        generators_t_p_min_pu := clipFrame c n.generators_t_p_min_pu,
        storage_units_t_inflow := clipFrame c n.storage_units_t_inflow } := by
  have hfind : n.global_constraints.find? (fun g => g.name == "lv_limit") = none := by
    rw [List.find?_eq_none]
    intro g hg
    simp [hlv g hg]
  unfold prepare_network
  rw [hclip, hshed, hnoise, hnh]
  have h2 : lvLimitStep (clipStep (some c) n) = clipStep (some c) n := by
    unfold lvLimitStep
    have hgc : (clipStep (some c) n).global_constraints = n.global_constraints := rfl
    rw [hgc, hfind]
  rw [h2]
  show landUseStep foresight landUse (clipStep (some c) n) =
    { n with
      generators_t_p_max_pu := clipFrame c n.generators_t_p_max_pu,
      generators_t_p_min_pu := clipFrame c n.generators_t_p_min_pu,
      storage_units_t_inflow := clipFrame c n.storage_units_t_inflow }
  unfold landUseStep
  rw [if_neg (show ¬((foresight == "myopic") = true) by simpa using hfore)]
  rfl

/-- Network carrying data in every table, for the frame witness. -/
def exFrameNet : Network :=
  { emptyNetwork with
    buses := [{ name := "b1", carrier := "AC" }],
    generators := [windGen],
    loads := [{ name := "d1", carrier := "AC" }],
    snapshots := [0, 1],
    snapshot_weightings := [4380, 4380],
    generators_t_p_max_pu := [[1/100], [3/4]],
    loads_t_p_set := [[5], [6]] }

/-- Concrete instance of `prepare_network_frame` on a populated network. -/
theorem prepare_network_frame_witness :
    prepare_network (fun gs => gs) (fun _ => 0) (fun _ => 0) "overnight"
        exClipOpts exFrameNet =
      { exFrameNet with
        generators_t_p_max_pu := clipFrame (1/50) exFrameNet.generators_t_p_max_pu,
        generators_t_p_min_pu := clipFrame (1/50) exFrameNet.generators_t_p_min_pu,
        storage_units_t_inflow := clipFrame (1/50) exFrameNet.storage_units_t_inflow } :=
  prepare_network_frame (fun gs => gs) (fun _ => 0) (fun _ => 0) "overnight"
    exClipOpts exFrameNet (1/50) rfl rfl rfl rfl (by decide) (by decide)

/-- Network with a single non-extendable line. -/
def exLineNet : Network :=
  { emptyNetwork with
    lines := [{ name := "l1", s_nom_extendable := false,
                capital_cost := 0, length := 1 }] }

/-- Concrete instance of `solve_path_selection`: with only a
non-extendable line and `skip_iterations` configured false, the single
non-iterative path is still selected. -/
theorem solve_path_selection_witness :
    solveNetworkPath false exLineNet = SolvePath.single :=
  (solve_path_selection false exLineNet).1 (by decide)

end SolveNetwork
